import Mathlib

/-!
Shallow embedding of the botcrypto trading backend (Python) and proofs about it.

Conventions used throughout:
* money, prices and quantities (Python `float`) are modelled as `ℚ`;
* wall-clock instants (Python `datetime`, always UTC in this code base) are
  modelled as `ℤ` seconds since the epoch, passed explicitly to each function
  that calls `now_utc()`;
* Python `Optional[...]` values are `Option ...`; `dict` objects whose keys are
  strings are association lists (first binding wins, as in the insertion-ordered
  Python `dict`);
* randomness (`random.gauss`) and generated identifiers (`uuid.uuid4`) are
  supplied as explicit arguments;
* log statements (`loguru`) have no observable effect and are dropped; Python
  f-string interpolations inside human-readable reason strings are abstracted
  to their fixed prefixes, since no verified property depends on the digits.
-/

namespace Botcrypto

/-- Python `datetime.date()` comparison support: a UTC timestamp in seconds is
mapped to its day number since the epoch (floor division, as Python does for
dates before and after the epoch alike). -/
def dateOf (t : ℤ) : ℤ := Int.fdiv t 86400

/-- Lookup in an insertion-ordered string-keyed dictionary (`d.get(k)` /
`d[k]`): first binding wins. -/
def assocGet {α : Type} : List (String × α) → String → Option α
  | [], _ => none
  | p :: rest, k => if p.1 == k then some p.2 else assocGet rest k

/-- Dictionary update `d[k] = v`: replaces the first binding of `k`, appending
a fresh binding when the key is absent (Python dicts keep insertion order). -/
def assocSet {α : Type} : List (String × α) → String → α → List (String × α)
  | [], k, v => [(k, v)]
  | p :: rest, k, v => if p.1 == k then (k, v) :: rest else p :: assocSet rest k v

/-- Dictionary deletion `del d[k]` (or `d.pop(k, None)`): drops the first
binding of `k`. -/
def assocDel {α : Type} : List (String × α) → String → List (String × α)
  | [], _ => []
  | p :: rest, k => if p.1 == k then rest else p :: assocDel rest k

/-!
## Circuit breakers — src/app/backend/risk/circuit_breakers.py
-/

/-- Python `CircuitBreakerState` (circuit_breakers.py lines 10-16). -/
structure CircuitBreakerState where
  triggered : Bool
  trigger_time : Option ℤ
  trigger_reason : String
  can_resume_at : Option ℤ
deriving Repr, DecidableEq

/-- Python `CircuitBreakerManager` fields (circuit_breakers.py lines 29-55). -/
structure CircuitBreakerManager where
  max_daily_drawdown : ℚ := 4/100
  max_failed_orders_per_hour : ℕ := 10
  cooldown_minutes : ℤ := 60
  state : CircuitBreakerState := ⟨false, none, "", none⟩
  failed_orders_history : List ℤ := []
  daily_high_equity : Option ℚ := none
  last_reset_date : Option ℤ := none
deriving Repr, DecidableEq

/-- Python `CircuitBreakerManager._trigger` (circuit_breakers.py lines 126-143):
idempotent trip; sets `can_resume_at = now + timedelta(minutes=cooldown_minutes)`. -/
def CircuitBreakerManager.trigger (m : CircuitBreakerManager) (now : ℤ)
    (reason : String) : CircuitBreakerManager :=
  if m.state.triggered then m
  else { m with
         state := { triggered := true, trigger_time := some now,
                    trigger_reason := reason,
                    can_resume_at := some (now + m.cooldown_minutes * 60) } }

/-- Daily-high reset step of `check_drawdown` (circuit_breakers.py lines 71-74):
if `last_reset_date is None or now.date() > last_reset_date.date()`, the daily
high restarts from the supplied starting equity. -/
def CircuitBreakerManager.resetDailyHigh (m : CircuitBreakerManager) (now : ℤ)
    (starting_equity : ℚ) : CircuitBreakerManager :=
  match m.last_reset_date with
  | none =>
      { m with daily_high_equity := some starting_equity, last_reset_date := some now }
  | some d =>
      if dateOf now > dateOf d then
        { m with daily_high_equity := some starting_equity, last_reset_date := some now }
      else m

/-- Running-maximum step of `check_drawdown` (circuit_breakers.py lines 76-79). -/
def CircuitBreakerManager.runningHigh (m : CircuitBreakerManager)
    (current_equity starting_equity : ℚ) : ℚ :=
  match m.daily_high_equity with
  | none => max starting_equity current_equity
  | some h => max h current_equity

/-- Python `CircuitBreakerManager.check_drawdown` (circuit_breakers.py lines 57-90).
Returns the Python return value paired with the mutated manager. -/
def CircuitBreakerManager.check_drawdown (m : CircuitBreakerManager) (now : ℤ)
    (current_equity starting_equity : ℚ) : Bool × CircuitBreakerManager :=
  if m.state.triggered then (true, m)
  else
    let m1 := m.resetDailyHigh now starting_equity
    let dh := m1.runningHigh current_equity starting_equity
    let m2 := { m1 with daily_high_equity := some dh }
    let drawdown := (dh - current_equity) / dh
    if drawdown ≥ m.max_daily_drawdown then
      (true, m2.trigger now "Max daily drawdown exceeded")
    else
      (false, m2)

/-- Python `CircuitBreakerManager.record_failed_order` (circuit_breakers.py lines
92-116): append `now`, keep only entries strictly newer than `now - 1 hour`,
trip when the remaining count reaches the threshold. -/
def CircuitBreakerManager.record_failed_order (m : CircuitBreakerManager)
    (now : ℤ) : Bool × CircuitBreakerManager :=
  if m.state.triggered then (true, m)
  else
    let cutoff := now - 3600
    let hist := (m.failed_orders_history ++ [now]).filter (fun t => t > cutoff)
    let m1 := { m with failed_orders_history := hist }
    if hist.length ≥ m.max_failed_orders_per_hour then
      (true, m1.trigger now "Too many failed orders")
    else
      (false, m1)

/-- Python `CircuitBreakerManager.can_trade` (circuit_breakers.py lines 145-159): the
cooldown comparison against `now` only feeds a log line; the result is `true`
iff the breaker is not triggered. -/
def CircuitBreakerManager.can_trade (m : CircuitBreakerManager) (_now : ℤ) : Bool :=
  if !m.state.triggered then true else false

/-- Python `CircuitBreakerManager.reset` (circuit_breakers.py lines 161-191): no-op
when not triggered; without `force`, refuses (returns unchanged) while
`now < can_resume_at`; otherwise clears the state and the failed-order history. -/
def CircuitBreakerManager.reset (m : CircuitBreakerManager) (now : ℤ)
    (force : Bool) : CircuitBreakerManager :=
  if !m.state.triggered then m
  else if !force && (match m.state.can_resume_at with
                     | some ra => decide (now < ra)
                     | none => false) then m
  else { m with state := ⟨false, none, "", none⟩, failed_orders_history := [] }

/-!
## Risk limits — src/app/backend/risk/limits.py
-/

/-- Python `TradeRecord` (limits.py lines 10-15). -/
structure TradeRecord where
  timestamp : ℤ
  symbol : String
  side : String
deriving Repr, DecidableEq

/-- Python `RiskLimits` fields (limits.py lines 28-49). -/
structure RiskLimits where
  max_trades_per_minute : ℕ := 6
  max_trades_per_day : ℕ := 1200
  max_position_exposure_pct : ℚ := 1/4
  max_total_exposure_pct : ℚ := 4/5
  trade_history : List TradeRecord := []
  position_exposures : List (String × ℚ) := []
deriving Repr, DecidableEq

/-- Python `RiskLimits._check_rate_limits` (limits.py lines 127-160): prune the trade
history to the last 24 hours (a mutation, returned as the second component),
then reject when the last-minute count or the pruned (last-day) count reaches
its cap. -/
def RiskLimits.check_rate_limits (m : RiskLimits) (now : ℤ) :
    (Bool × String) × RiskLimits :=
  let one_minute_ago := now - 60
  let one_day_ago := now - 86400
  let day_trades := m.trade_history.filter (fun t => t.timestamp > one_day_ago)
  let m1 := { m with trade_history := day_trades }
  let minute_trades := day_trades.filter (fun t => t.timestamp > one_minute_ago)
  if minute_trades.length ≥ m.max_trades_per_minute then
    ((false, "Trade rate limit exceeded"), m1)
  else if day_trades.length ≥ m.max_trades_per_day then
    ((false, "Daily trade limit exceeded"), m1)
  else
    ((true, ""), m1)

/-- Python `RiskLimits.can_place_order` (limits.py lines 51-97): rate limits, then
per-symbol exposure (`> max_position_exposure_pct` rejects), then aggregate
exposure (`> max_total_exposure_pct` rejects). `side` is unused by the code. -/
def RiskLimits.can_place_order (m : RiskLimits) (symbol : String) (_side : String)
    (position_value equity : ℚ) (now : ℤ) : (Bool × String) × RiskLimits :=
  match m.check_rate_limits now with
  | ((false, reason), m1) => ((false, reason), m1)
  | ((true, _), m1) =>
      let current_exposure := (assocGet m1.position_exposures symbol).getD 0
      let new_exposure := current_exposure + position_value
      let exposure_pct := new_exposure / equity
      if exposure_pct > m.max_position_exposure_pct then
        ((false, "Position exposure limit exceeded for " ++ symbol), m1)
      else
        let total_exposure := (m1.position_exposures.map (fun p => p.2)).sum + position_value
        let total_exposure_pct := total_exposure / equity
        if total_exposure_pct > m.max_total_exposure_pct then
          ((false, "Total exposure limit exceeded"), m1)
        else
          ((true, ""), m1)

/-!
## Stop rules — src/app/backend/risk/stop_rules.py
-/

/-- Python `StopLevels` (stop_rules.py lines 7-14). -/
structure StopLevels where
  stop_loss : Option ℚ
  take_profit : Option ℚ
  trailing_stop_distance : Option ℚ
  highest_price : Option ℚ
  lowest_price : Option ℚ
deriving Repr, DecidableEq

/-- Python truthiness of an `Optional[float]`: `None` and `0.0` are falsy.
This is the test performed by `if stops.stop_loss and ...`. -/
def pyTruthy (x : Option ℚ) : Bool :=
  match x with
  | none => false
  | some v => v != 0

/-- Body of `StopLossManager.check_stops` for one `StopLevels` record
(stop_rules.py lines 134-149). Each guard is Python's short-circuit
`level and price ≤/≥ level`, so a level that is `None` or exactly `0.0`
never fires (the `getD 0` default is only reached under `pyTruthy`). -/
def checkStopLevels (stops : StopLevels) (current_price : ℚ) (side : String) :
    Bool × Option String :=
  if side = "buy" then
    if pyTruthy stops.stop_loss && decide (current_price ≤ stops.stop_loss.getD 0) then
      (true, some "Stop loss hit")
    else if pyTruthy stops.take_profit && decide (current_price ≥ stops.take_profit.getD 0) then
      (true, some "Take profit hit")
    else (false, none)
  else
    if pyTruthy stops.stop_loss && decide (current_price ≥ stops.stop_loss.getD 0) then
      (true, some "Stop loss hit")
    else if pyTruthy stops.take_profit && decide (current_price ≤ stops.take_profit.getD 0) then
      (true, some "Take profit hit")
    else (false, none)

/-- Python `StopLossManager` (stop_rules.py lines 17-22): the `position_id → stops`
registry. -/
structure StopLossManager where
  stops : List (String × StopLevels)
deriving Repr, DecidableEq

/-- Registry lookup `self.stops.get(position_id)` / the
`position_id not in self.stops` test. -/
def StopLossManager.getStops (mgr : StopLossManager) (position_id : String) :
    Option StopLevels :=
  assocGet mgr.stops position_id

/-- Python `StopLossManager.check_stops` (stop_rules.py lines 113-149). -/
def StopLossManager.check_stops (mgr : StopLossManager) (position_id : String)
    (current_price : ℚ) (side : String) : Bool × Option String :=
  match mgr.getStops position_id with
  | none => (false, none)
  | some stops => checkStopLevels stops current_price side

/-!
## Fees, slippage and the paper broker —
src/app/backend/execution/fees.py, execution/slippage.py, paper/broker_paper.py
-/

/-- Python `FeesCalculator.calculate_fee` (fees.py lines 17-28). -/
def calculate_fee (maker_fee_bps taker_fee_bps notional : ℚ) (is_maker : Bool) : ℚ :=
  let fee_bps := if is_maker then maker_fee_bps else taker_fee_bps
  notional * (fee_bps / 10000)

/-- Python `SlippageSimulator.apply_slippage` (slippage.py lines 18-36). The Gaussian
draw `random.gauss(slippage_bps, variance_bps)` is supplied as the explicit
argument `sample` (in basis points): buys pay `price * (1 + |sample/10000|)`,
sells receive `price * (1 - |sample/10000|)`. -/
def apply_slippage (sample price : ℚ) (side : String) : ℚ :=
  let slippage := sample / 10000
  if side = "buy" then price * (1 + |slippage|) else price * (1 - |slippage|)

/-- Metadata dictionary attached to a paper-broker `OrderResult`
(broker_paper.py lines 85, 107, 126): at most a reject reason, or the fee and
slippage-adjusted price of a fill. -/
structure OrderMetadata where
  reject_reason : Option String := none
  fee : Option ℚ := none
  slippage_price : Option ℚ := none
deriving Repr, DecidableEq

/-- Python `OrderResult` (src/app/backend/exchanges/base.py lines 47-61). -/
structure OrderResult where
  order_id : String
  client_order_id : Option String
  symbol : String
  side : String
  order_type : String
  status : String
  quantity : ℚ
  filled_quantity : ℚ
  price : Option ℚ
  average_fill_price : Option ℚ
  timestamp : ℤ
  metadata : OrderMetadata
deriving Repr, DecidableEq

/-- One entry of `PaperBroker.positions` (broker_paper.py lines 140-144). -/
structure PaperPosition where
  quantity : ℚ
  avg_price : ℚ
deriving Repr, DecidableEq

/-- Python `PaperBroker` fields (broker_paper.py lines 16-35). The slippage/fee
simulator objects are represented by the basis-point parameters they close
over. -/
structure PaperBroker where
  cash : ℚ := 10000
  initial_cash : ℚ := 10000
  positions : List (String × PaperPosition) := []
  orders : List (String × OrderResult) := []
  slippage_bps : ℚ := 2
  fees_bps : ℚ := 10
deriving Repr, DecidableEq

/-- Python `PaperBroker._update_position` (broker_paper.py lines 138-157). Note the
sell branch subtracts the `quantity` argument as passed by the caller. -/
def PaperBroker.update_position (b : PaperBroker) (symbol : String)
    (quantity price : ℚ) (side : String) : PaperBroker :=
  let pos := (assocGet b.positions symbol).getD ⟨0, 0⟩
  if side = "buy" then
    let total_cost := pos.quantity * pos.avg_price + quantity * price
    let new_qty := pos.quantity + quantity
    let new_avg := if new_qty > 0 then total_cost / new_qty else 0
    { b with positions := assocSet b.positions symbol ⟨new_qty, new_avg⟩ }
  else
    let new_qty := pos.quantity - quantity
    if new_qty ≤ 0 then { b with positions := assocDel b.positions symbol }
    else { b with positions := assocSet b.positions symbol ⟨new_qty, pos.avg_price⟩ }

/-- Rejected `OrderResult` literal (broker_paper.py lines 73-86 and 95-108). -/
def mkRejectedOrder (order_id : String) (client_order_id : Option String)
    (symbol side : String) (quantity : ℚ) (now : ℤ) (reason : String) : OrderResult :=
  { order_id := order_id, client_order_id := client_order_id, symbol := symbol,
    side := side, order_type := "market", status := "rejected",
    quantity := quantity, filled_quantity := 0, price := none,
    average_fill_price := none, timestamp := now,
    metadata := { reject_reason := some reason } }

/-- Filled `OrderResult` literal (broker_paper.py lines 114-127). -/
def mkFilledOrder (order_id : String) (client_order_id : Option String)
    (symbol side : String) (quantity exec_price fee : ℚ) (now : ℤ) : OrderResult :=
  { order_id := order_id, client_order_id := client_order_id, symbol := symbol,
    side := side, order_type := "market", status := "filled",
    quantity := quantity, filled_quantity := quantity, price := none,
    average_fill_price := some exec_price, timestamp := now,
    metadata := { fee := some fee, slippage_price := some exec_price } }

/-- Python `PaperBroker.create_market_order` (broker_paper.py lines 39-136). The
generated `uuid.uuid4()` is the explicit `order_id` argument and the Gaussian
slippage draw is `slippage_sample`; the fee is the taker fee of a
`FeesCalculator(taker_fee_bps=fees_bps)` (maker default 10.0, unused). -/
def PaperBroker.create_market_order (b : PaperBroker) (symbol side : String)
    (quantity current_price : ℚ) (client_order_id : Option String)
    (order_id : String) (slippage_sample : ℚ) (now : ℤ) :
    OrderResult × PaperBroker :=
  let exec_price := apply_slippage slippage_sample current_price side
  let notional := exec_price * quantity
  let fee := calculate_fee 10 b.fees_bps notional false
  if side = "buy" then
    let required_cash := notional + fee
    if required_cash > b.cash then
      (mkRejectedOrder order_id client_order_id symbol side quantity now
        "insufficient_cash", b)
    else
      let b1 := ({ b with cash := b.cash - required_cash }).update_position
        symbol quantity exec_price side
      let result := mkFilledOrder order_id client_order_id symbol side quantity
        exec_price fee now
      (result, { b1 with orders := assocSet b1.orders order_id result })
  else
    if (match assocGet b.positions symbol with
        | none => true
        | some pos => decide (pos.quantity < quantity)) then
      (mkRejectedOrder order_id client_order_id symbol side quantity now
        "insufficient_position", b)
    else
      let b1 := ({ b with cash := b.cash + (notional - fee) }).update_position
        symbol (-quantity) exec_price side
      let result := mkFilledOrder order_id client_order_id symbol side quantity
        exec_price fee now
      (result, { b1 with orders := assocSet b1.orders order_id result })

/-!
## Order status updates — src/app/backend/db/crud.py and db/models.py
-/

/-- Python `OrderStatus` enumeration (models.py lines 24-32); `opened` stands for the
Python member `OPEN` (`open` is a Lean keyword). -/
inductive OrderStatus where
  | pending
  | opened
  | filled
  | partially_filled
  | cancelled
  | rejected
  | expired
deriving Repr, DecidableEq

/-- The columns of the persisted `Order` row read or written by
`update_order_status`; the many unrelated columns (symbol, side, prices,
creation metadata, ...) are omitted as they are never touched by it. -/
structure DbOrder where
  order_id : String
  status : OrderStatus
  filled_quantity : ℚ
  average_fill_price : Option ℚ
  filled_at : Option ℤ
  cancelled_at : Option ℤ
  updated_at : Option ℤ
deriving Repr, DecidableEq

/-- Python `get_order` (crud.py lines 31-36): point lookup by `order_id`, `None` when
absent. The database is modelled as an association list of rows. -/
def get_order (db : List (String × DbOrder)) (order_id : String) : Option DbOrder :=
  assocGet db order_id

/-- Python `update_order_status` (crud.py lines 60-87): returns `None` for an unknown
id; otherwise sets the requested status and `updated_at` unconditionally,
overwrites `filled_quantity`/`average_fill_price` when supplied, and stamps
`filled_at` when the new status is `FILLED` (resp. `cancelled_at` for
`CANCELLED`), then returns the mutated row. -/
def update_order_status (db : List (String × DbOrder)) (order_id : String)
    (status : OrderStatus) (filled_quantity : Option ℚ)
    (average_fill_price : Option ℚ) (now : ℤ) : Option DbOrder :=
  match get_order db order_id with
  | none => none
  | some order =>
      let o1 := { order with status := status, updated_at := some now }
      let o2 :=
        match filled_quantity with
        | none => o1
        | some fq => { o1 with filled_quantity := fq }
      let o3 :=
        match average_fill_price with
        | none => o2
        | some p => { o2 with average_fill_price := some p }
      let o4 :=
        if status = OrderStatus.filled then { o3 with filled_at := some now }
        else if status = OrderStatus.cancelled then { o3 with cancelled_at := some now }
        else o3
      some o4

/-!
## Rebalancer — src/app/backend/portfolio/rebalancer.py
-/

/-- Python `Rebalancer` configuration (rebalancer.py lines 9-24). -/
structure Rebalancer where
  rebalance_threshold_pct : ℚ := 1/50
  cost_aware : Bool := true
  fee_bps : ℚ := 10
deriving Repr, DecidableEq

/-- One value of the trade dictionary built by `calculate_rebalance_trades`
(rebalancer.py lines 83-90). -/
structure RebalanceTrade where
  current_value : ℚ
  target_value : ℚ
  delta_value : ℚ
  delta_quantity : ℚ
  side : String
  price : ℚ
deriving Repr, DecidableEq

/-- Python `set(list(current.keys()) + list(target.keys()))` (rebalancer.py line 51),
as a duplicate-free list. -/
def symbolUnion (cur tgt : List (String × ℚ)) : List String :=
  (cur.map (fun p => p.1) ++ tgt.map (fun p => p.1)).dedup

/-- Loop body of `calculate_rebalance_trades` for one symbol (rebalancer.py
lines 52-90): `none` models `continue` (deviation below threshold, cost-aware
skip, or missing/zero price). -/
def Rebalancer.rebalanceFor (r : Rebalancer) (total_value : ℚ)
    (cur tgt prices : List (String × ℚ)) (symbol : String) : Option RebalanceTrade :=
  let current_value := (assocGet cur symbol).getD 0
  let target_value := (assocGet tgt symbol).getD 0
  let delta_value := target_value - current_value
  let deviation_pct := if total_value > 0 then |delta_value| / total_value else 0
  if deviation_pct < r.rebalance_threshold_pct then none
  else if r.cost_aware &&
      decide (|delta_value| < |delta_value| * (r.fee_bps / 10000) * 2) then none
  else
    let price := (assocGet prices symbol).getD 0
    if price = 0 then none
    else
      let delta_quantity := delta_value / price
      some { current_value := current_value, target_value := target_value,
             delta_value := delta_value, delta_quantity := |delta_quantity|,
             side := if delta_quantity > 0 then "buy" else "sell",
             price := price }

/-- Python `Rebalancer.calculate_rebalance_trades` (rebalancer.py lines 26-93). -/
def Rebalancer.calculate_rebalance_trades (r : Rebalancer)
    (current_allocation target_allocation prices : List (String × ℚ)) :
    List (String × RebalanceTrade) :=
  let total_value := (current_allocation.map (fun p => p.2)).sum
  (symbolUnion current_allocation target_allocation).filterMap
    (fun sym =>
      (r.rebalanceFor total_value current_allocation target_allocation prices sym).map
        (fun t => (sym, t)))

/-!
## Trend/ATR strategy — src/app/backend/strategies/trend_atr.py

Undefined float cells (pandas `NaN` during indicator warm-up) are modelled as
`none`; every comparison against an undefined value is false, exactly as IEEE
comparisons against `NaN` are in pandas.
-/

/-- One row of the OHLCV DataFrame; `open` and `volume` exist in the data but
are never read by this strategy and are omitted. -/
structure OHLCVRow where
  high : ℚ
  low : ℚ
  close : ℚ
deriving Repr, DecidableEq

/-- NaN-propagating addition on possibly-undefined floats. -/
def oadd : Option ℚ → Option ℚ → Option ℚ
  | some a, some b => some (a + b)
  | _, _ => none

/-- NaN-propagating subtraction on possibly-undefined floats. -/
def osub : Option ℚ → Option ℚ → Option ℚ
  | some a, some b => some (a - b)
  | _, _ => none

/-- NaN-propagating multiplication on possibly-undefined floats. -/
def omul : Option ℚ → Option ℚ → Option ℚ
  | some a, some b => some (a * b)
  | _, _ => none

/-- Comparison `a <= b`, false when either side is undefined (NaN). -/
def oleB : Option ℚ → Option ℚ → Bool
  | some a, some b => decide (a ≤ b)
  | _, _ => false

/-- Comparison `a < b`, false when either side is undefined (NaN). -/
def oltB : Option ℚ → Option ℚ → Bool
  | some a, some b => decide (a < b)
  | _, _ => false

/-- Value of `close.rolling(n).mean()` at the last row: the mean of the last
`n` closes, undefined (NaN) when the window does not fit. -/
def smaLast (rows : List OHLCVRow) (n : ℕ) : Option ℚ :=
  if 0 < n ∧ n ≤ rows.length then
    some (((rows.map (fun r => r.close)).drop (rows.length - n)).sum / (n : ℚ))
  else none

/-- True ranges of consecutive rows:
`max(high - low, |high - prev_close|, |low - prev_close|)`, starting from the
second row (the first row has no previous close). -/
def trueRanges : List OHLCVRow → List ℚ
  | [] => []
  | [_] => []
  | a :: b :: rest =>
      max (b.high - b.low) (max |b.high - a.close| |b.low - a.close|) ::
        trueRanges (b :: rest)

/-- Value of `ta.atr(high, low, close, length=n)` at the last row. The
`pandas_ta` library is an external dependency whose source is not part of this
repository; per the spec's glossary it is the Average True Range, modelled
here in its standard Wilder form: the first value is the mean of the first `n`
true ranges and each later value is `(prev * (n-1) + tr) / n`. The theorems
about this strategy only use the value symbolically, so they are insensitive
to the exact smoothing. -/
def atrLast (rows : List OHLCVRow) (n : ℕ) : Option ℚ :=
  let trs := trueRanges rows
  if 0 < n ∧ n ≤ trs.length then
    some ((trs.drop n).foldl (fun a tr => (a * ((n : ℚ) - 1) + tr) / (n : ℚ))
      ((trs.take n).sum / (n : ℚ)))
  else none

/-- Python `TrendATRStrategy` parameters (trend_atr.py lines 11-17). -/
structure TrendATRStrategy where
  sma_fast : ℕ := 50
  sma_slow : ℕ := 200
  atr_period : ℕ := 14
  atr_mult_sl : ℚ := 2
  atr_mult_tp : ℚ := 2
deriving Repr, DecidableEq

/-- Python `Signal` (src/app/backend/strategies/base.py lines 8-17); price fields are
possibly-NaN floats. -/
structure Signal where
  symbol : String
  side : String
  entry_price : Option ℚ
  stop_loss : Option ℚ := none
  take_profit : Option ℚ := none
  confidence : ℚ := 1
  reason : String := ""
deriving Repr, DecidableEq

/-- Python `TrendATRStrategy.generate_signals` (trend_atr.py lines 19-67): history
shorter than `max(sma_slow, atr_period)` yields no signals; a bullish
crossover (`prev fast ≤ prev slow` and `last fast > last slow`) yields one buy
signal with `stop_loss = close - atr_mult_sl * ATR` and
`take_profit = close + atr_mult_tp * atr_mult_sl * ATR`; the bearish crossover
is the mirrored elif branch. -/
def TrendATRStrategy.generate_signals (s : TrendATRStrategy) (symbol : String)
    (data : List OHLCVRow) : List Signal :=
  if data.length < max s.sma_slow s.atr_period then []
  else
    let last_close := data.getLast?.map (fun r => r.close)
    let last_fast := smaLast data s.sma_fast
    let last_slow := smaLast data s.sma_slow
    let prev := data.dropLast
    let prev_fast := smaLast prev s.sma_fast
    let prev_slow := smaLast prev s.sma_slow
    let last_atr := atrLast data s.atr_period
    if oleB prev_fast prev_slow && oltB last_slow last_fast then
      [{ symbol := symbol, side := "buy", entry_price := last_close,
         stop_loss := osub last_close (omul (some s.atr_mult_sl) last_atr),
         take_profit := oadd last_close
           (omul (some (s.atr_mult_tp * s.atr_mult_sl)) last_atr),
         confidence := 1,
         reason := "SMA crossover bullish: " ++ toString s.sma_fast ++ "/" ++
           toString s.sma_slow }]
    else if oleB prev_slow prev_fast && oltB last_fast last_slow then
      [{ symbol := symbol, side := "sell", entry_price := last_close,
         stop_loss := oadd last_close (omul (some s.atr_mult_sl) last_atr),
         take_profit := osub last_close
           (omul (some (s.atr_mult_tp * s.atr_mult_sl)) last_atr),
         confidence := 1,
         reason := "SMA crossover bearish: " ++ toString s.sma_fast ++ "/" ++
           toString s.sma_slow }]
    else []

/-!
## Concrete instances used to evaluate the theorems on closed inputs
-/

/-- Freshly constructed `CircuitBreakerManager()` with all defaults. -/
def cbFresh : CircuitBreakerManager := {}

/-- Python `CircuitBreakerManager(max_failed_orders_per_hour=3)` that has already
seen two failed orders inside the current hour. -/
def cbNearLimit : CircuitBreakerManager :=
  { max_failed_orders_per_hour := 3, failed_orders_history := [-100, -200] }

/-- A tripped breaker (as left by `manual_kill_switch` at time 0 with the
default 60-minute cooldown). -/
def cbTripped : CircuitBreakerManager :=
  { state := { triggered := true, trigger_time := some 0,
               trigger_reason := "Manual kill switch activated",
               can_resume_at := some 3600 },
    failed_orders_history := [10, 20] }

/-- Freshly constructed `RiskLimits()` with all defaults. -/
def riskFresh : RiskLimits := {}

/-- Python `PaperBroker(initial_cash=1000)`. -/
def brokerPoor : PaperBroker := { cash := 1000, initial_cash := 1000 }

/-- Python `PaperBroker()` with the default 10000 cash. -/
def brokerFresh : PaperBroker := {}

/-- A persisted order already in the terminal state `filled`. -/
def dbOrderFilled : DbOrder :=
  { order_id := "o1", status := OrderStatus.filled, filled_quantity := 1,
    average_fill_price := some 10, filled_at := some 1, cancelled_at := none,
    updated_at := some 1 }

/-- Python `Rebalancer()` with all defaults (threshold 0.02, cost-aware, 10 bps). -/
def rebalDefault : Rebalancer := {}

/-- A tiny trend strategy configuration (fast window 1, slow window 2,
ATR period 1) for closed-form evaluation. -/
def trendTiny : TrendATRStrategy := { sma_fast := 1, sma_slow := 2, atr_period := 1 }

/-- Three candles whose fast SMA crosses above the slow SMA on the last bar
under `trendTiny`. -/
def rowsBullish : List OHLCVRow := [⟨10, 10, 10⟩, ⟨10, 10, 10⟩, ⟨20, 20, 20⟩]

/-- Stop levels registering a literal `stop_loss = 0.0` on a position. -/
def stopsZeroSL : StopLevels :=
  { stop_loss := some 0, take_profit := none, trailing_stop_distance := none,
    highest_price := none, lowest_price := some 50 }

/-- A stop manager holding `stopsZeroSL` for position `"p1"`. -/
def stopMgrEx : StopLossManager := ⟨[("p1", stopsZeroSL)]⟩

/-!
## Association-list lemmas
-/

/-- Reading back the key just written by `assocSet`. -/
theorem assocGet_assocSet_self {α : Type} (l : List (String × α)) (k : String)
    (v : α) : assocGet (assocSet l k v) k = some v := by
  induction l with
  | nil => simp [assocSet, assocGet]
  | cons p rest ih =>
      by_cases h : p.1 = k
      · simp [assocSet, assocGet, h]
      · simp [assocSet, assocGet, h, ih]

/-- Python `assocGet` over the `filterMap` that builds the rebalance-trade
dictionary: a symbol is bound iff it occurs in the iterated list and its
per-symbol computation produced a value. -/
theorem assocGet_filterMap_build {α : Type} (l : List String)
    (g : String → Option α) (sym : String) :
    assocGet (l.filterMap (fun s => (g s).map (fun t => (s, t)))) sym =
      if sym ∈ l then g sym else none := by
  induction l with
  | nil => simp [assocGet]
  | cons a rest ih =>
      by_cases ha : a = sym
      · subst ha
        cases hg : g a with
        | none => simp [List.filterMap_cons, hg, ih]
        | some t => simp [List.filterMap_cons, hg, assocGet]
      · have ha2 : ¬sym = a := fun h => ha h.symm
        cases hg : g a with
        | none => simp [List.filterMap_cons, hg, ih, ha2]
        | some t => simp [List.filterMap_cons, hg, assocGet, ha, ha2, ih]

/-!
## Claim theorems: circuit breakers
-/

/-- C1: after `check_drawdown` has raised the daily high-water mark to the
running maximum `dh`, the breaker trips exactly at the threshold: when
`(dh - current)/dh ≥ max_daily_drawdown` the call returns `true`, the breaker
is triggered and `can_trade()` is false; when the drawdown is strictly below
the threshold (the breaker not being already triggered) the call returns
`false` and `can_trade()` stays true. -/
theorem check_drawdown_trips_at_threshold (m : CircuitBreakerManager)
    (now t : ℤ) (current_equity starting_equity dh : ℚ)
    (hnt : m.state.triggered = false)
    (hdh : dh = (m.resetDailyHigh now starting_equity).runningHigh
        current_equity starting_equity)
    (hpos : 0 < dh) :
    (m.check_drawdown now current_equity starting_equity).2.daily_high_equity
        = some dh ∧
    ((dh - current_equity) / dh ≥ m.max_daily_drawdown →
      (m.check_drawdown now current_equity starting_equity).1 = true ∧
      (m.check_drawdown now current_equity starting_equity).2.state.triggered = true ∧
      (m.check_drawdown now current_equity starting_equity).2.can_trade t = false) ∧
    ((dh - current_equity) / dh < m.max_daily_drawdown →
      (m.check_drawdown now current_equity starting_equity).1 = false ∧
      (m.check_drawdown now current_equity starting_equity).2.state.triggered = false ∧
      (m.check_drawdown now current_equity starting_equity).2.can_trade t = true) := by
  have hstate : (m.resetDailyHigh now starting_equity).state = m.state := by
    unfold CircuitBreakerManager.resetDailyHigh
    cases m.last_reset_date with
    | none => rfl
    | some d => by_cases hd : dateOf now > dateOf d <;> simp [hd]
  subst hdh
  unfold CircuitBreakerManager.check_drawdown
  rw [hnt]
  simp only [Bool.false_eq_true, if_false]
  by_cases hge :
      ((m.resetDailyHigh now starting_equity).runningHigh current_equity starting_equity -
        current_equity) /
        (m.resetDailyHigh now starting_equity).runningHigh current_equity starting_equity ≥
        m.max_daily_drawdown
  · refine ⟨?_, fun _ => ?_, fun hlt => absurd hge (not_le.mpr hlt)⟩
    · simp only [hge, if_true]
      unfold CircuitBreakerManager.trigger
      simp [hstate, hnt]
    · simp only [hge, if_true]
      unfold CircuitBreakerManager.trigger CircuitBreakerManager.can_trade
      simp [hstate, hnt]
  · refine ⟨?_, fun hge2 => absurd hge2 hge, fun _ => ?_⟩
    · simp only [hge, if_false]
    · simp only [hge, if_false]
      unfold CircuitBreakerManager.can_trade
      simp [hstate, hnt]

/-- Witness for C1: a fresh breaker with a 4% threshold sees equity drop from
10000 to 9500 (a 5% drawdown from the daily high 10000): the call returns
true and trading halts. -/
theorem check_drawdown_trips_at_threshold_witness :
    (cbFresh.check_drawdown 0 9500 10000).1 = true ∧
    (cbFresh.check_drawdown 0 9500 10000).2.can_trade 0 = false := by
  have h := check_drawdown_trips_at_threshold cbFresh 0 0 9500 10000 10000
    rfl (by decide) (by decide)
  have hge : ((10000 : ℚ) - 9500) / 10000 ≥ cbFresh.max_daily_drawdown := by
    norm_num [cbFresh]
  exact ⟨(h.2.1 hge).1, (h.2.1 hge).2.2⟩

/-- C2: a triggered breaker refuses trading at every instant (the cooldown
never auto-clears it); `reset(force=true)` always restores `can_trade()` and
clears the failed-order history whatever the trigger reason was; and
`reset(force=false)` called before `can_resume_at` leaves the manager
completely unchanged. -/
theorem circuit_breaker_requires_manual_reset (m : CircuitBreakerManager)
    (t now nowR ra : ℤ)
    (htrig : m.state.triggered = true) :
    m.can_trade t = false ∧
    (m.reset nowR true).state.triggered = false ∧
    (m.reset nowR true).can_trade t = true ∧
    (m.reset nowR true).failed_orders_history = [] ∧
    (m.state.can_resume_at = some ra → now < ra → m.reset now false = m) := by
  refine ⟨?_, ?_, ?_, ?_, ?_⟩
  · unfold CircuitBreakerManager.can_trade
    rw [htrig]
    rfl
  · unfold CircuitBreakerManager.reset
    rw [htrig]
    rfl
  · unfold CircuitBreakerManager.reset CircuitBreakerManager.can_trade
    rw [htrig]
    rfl
  · unfold CircuitBreakerManager.reset
    rw [htrig]
    rfl
  · intro hra hlt
    unfold CircuitBreakerManager.reset
    rw [htrig, hra]
    simp [hlt]

/-- Witness for C2: the manually tripped breaker `cbTripped` (cooldown ends at
3600) cannot trade even at time 999999, is fully restored by a forced reset,
and is untouched by `reset(force=false)` at time 50 < 3600. -/
theorem circuit_breaker_requires_manual_reset_witness :
    cbTripped.can_trade 999999 = false ∧
    (cbTripped.reset 42 true).can_trade 999999 = true ∧
    (cbTripped.reset 42 true).failed_orders_history = [] ∧
    cbTripped.reset 50 false = cbTripped := by
  have h := circuit_breaker_requires_manual_reset cbTripped 999999 50 42 3600 rfl
  exact ⟨h.1, h.2.2.1, h.2.2.2.1, h.2.2.2.2 rfl (by decide)⟩

/-- C7: `record_failed_order` on an untriggered breaker appends the current
timestamp, discards entries at least one hour old, and trips (returning
`true`, making `can_trade()` false) exactly when the remaining count inside
the rolling one-hour window reaches `max_failed_orders_per_hour`; timestamps
recorded more than one hour before the call never count. -/
theorem record_failed_order_rolling_window (m : CircuitBreakerManager)
    (now t : ℤ) (kept : List ℤ)
    (hnt : m.state.triggered = false)
    (hkept : kept = (m.failed_orders_history ++ [now]).filter
        (fun s => s > now - 3600)) :
    ((m.record_failed_order now).1 = true ↔
        m.max_failed_orders_per_hour ≤ kept.length) ∧
    (m.record_failed_order now).2.failed_orders_history = kept ∧
    ((m.record_failed_order now).1 = true →
        (m.record_failed_order now).2.can_trade t = false) ∧
    ((m.record_failed_order now).1 = false →
        (m.record_failed_order now).2.can_trade t = true) ∧
    (∀ s ∈ m.failed_orders_history, s ≤ now - 3600 → s ∉ kept) := by
  subst hkept
  have hsplit : m.record_failed_order now =
      (if m.max_failed_orders_per_hour ≤
          ((m.failed_orders_history ++ [now]).filter (fun s => s > now - 3600)).length then
        (true, CircuitBreakerManager.trigger
          { m with failed_orders_history :=
              (m.failed_orders_history ++ [now]).filter (fun s => s > now - 3600) }
          now "Too many failed orders")
      else
        (false, { m with failed_orders_history :=
            (m.failed_orders_history ++ [now]).filter (fun s => s > now - 3600) })) := by
    unfold CircuitBreakerManager.record_failed_order
    rw [hnt]
    rfl
  rw [hsplit]
  by_cases hlen : m.max_failed_orders_per_hour ≤
      ((m.failed_orders_history ++ [now]).filter (fun s => s > now - 3600)).length
  · rw [if_pos hlen]
    refine ⟨⟨fun _ => hlen, fun _ => rfl⟩, ?_, ?_, ?_, ?_⟩
    · simp [CircuitBreakerManager.trigger, hnt]
    · intro _
      simp [CircuitBreakerManager.trigger, CircuitBreakerManager.can_trade, hnt]
    · intro hfalse
      exact Bool.noConfusion hfalse
    · intro s _ hs hmem
      have hm := List.of_mem_filter hmem
      simp at hm
      omega
  · rw [if_neg hlen]
    refine ⟨⟨fun h => Bool.noConfusion h, fun h => absurd h hlen⟩, rfl, ?_, ?_, ?_⟩
    · intro htrue
      exact Bool.noConfusion htrue
    · intro _
      simp [CircuitBreakerManager.can_trade, hnt]
    · intro s _ hs hmem
      have hm := List.of_mem_filter hmem
      simp at hm
      omega

/-- Witness for C7: with threshold 3 and two failures 100 and 200 seconds ago,
a third failure at time 0 keeps all three timestamps in the window and trips
the breaker. -/
theorem record_failed_order_rolling_window_witness :
    (cbNearLimit.record_failed_order 0).1 = true ∧
    (cbNearLimit.record_failed_order 0).2.can_trade 0 = false ∧
    (cbNearLimit.record_failed_order 0).2.failed_orders_history = [-100, -200, 0] := by
  have h := record_failed_order_rolling_window cbNearLimit 0 0 [-100, -200, 0]
    rfl (by decide)
  have htrue : (cbNearLimit.record_failed_order 0).1 = true := h.1.mpr (by decide)
  exact ⟨htrue, h.2.2.1 htrue, h.2.1⟩

/-!
## Claim theorems: stop rules
-/

/-- C10: a registered `stop_loss` equal to the literal `0.0` is falsy in the
Python guard `if stops.stop_loss and ...`, so `check_stops` treats it exactly
like an absent level: the call behaves as if `stop_loss` were `None`, the
stop-loss branch never fires for any price and side (in particular a short
position with `stop_loss = 0.0` is never reported as stopped out, although
every non-negative price satisfies `price ≥ 0`), and with no truthy
take-profit the call returns `(False, None)`. -/
theorem check_stops_zero_stop_ignored (mgr : StopLossManager) (pid : String)
    (levels : StopLevels) (price : ℚ) (side : String)
    (hfind : mgr.getStops pid = some levels)
    (hsl : levels.stop_loss = some 0) :
    mgr.check_stops pid price side =
      checkStopLevels { levels with stop_loss := none } price side ∧
    (mgr.check_stops pid price side).2 ≠ some "Stop loss hit" ∧
    (pyTruthy levels.take_profit = false →
      mgr.check_stops pid price side = (false, none)) := by
  have h1 : mgr.check_stops pid price side = checkStopLevels levels price side := by
    unfold StopLossManager.check_stops
    rw [hfind]
  have hmain : mgr.check_stops pid price side =
      checkStopLevels { levels with stop_loss := none } price side := by
    rw [h1]
    unfold checkStopLevels
    rw [hsl]
    simp [pyTruthy]
  refine ⟨hmain, ?_, ?_⟩
  · rw [hmain]
    unfold checkStopLevels
    by_cases hb : side = "buy" <;> simp [hb, pyTruthy] <;> split_ifs <;> simp
  · intro htp
    rw [hmain]
    unfold checkStopLevels
    by_cases hb : side = "buy" <;>
      simp [hb, htp, show pyTruthy none = false from rfl]

/-- Witness for C10: position `"p1"` is short with `stop_loss = 0.0`; at price
100 (which satisfies `100 ≥ 0`, the short stop-out comparison) no stop fires. -/
theorem check_stops_zero_stop_ignored_witness :
    stopMgrEx.check_stops "p1" 100 "sell" = (false, none) := by
  have h := check_stops_zero_stop_ignored stopMgrEx "p1" stopsZeroSL 100 "sell" rfl rfl
  exact h.2.2 rfl

/-!
## Claim theorems: order status updates
-/

/-- C3 counterexample: `update_order_status` accepts a transition out of the
terminal state `filled` — the stored order `dbOrderFilled` (status `filled`)
is updated to `cancelled` and the new status is installed, contradicting the
claim that no status transition is accepted once an order is terminal. -/
theorem update_order_status_leaves_terminal :
    dbOrderFilled.status = OrderStatus.filled ∧
    (update_order_status [("o1", dbOrderFilled)] "o1" OrderStatus.cancelled
        none none 5).map DbOrder.status = some OrderStatus.cancelled := by
  constructor <;> rfl

/-- C3 amended: `update_order_status` performs no transition validation. For
any stored order it unconditionally installs the requested status and stamps
`updated_at`; it overwrites `filled_quantity` / `average_fill_price` exactly
when those arguments are supplied; and it stamps `filled_at` whenever the
requested status is `filled` (resp. `cancelled_at` for `cancelled`),
regardless of the previous status — including out of terminal states. -/
theorem update_order_status_unconditional (db : List (String × DbOrder))
    (order_id : String) (status : OrderStatus) (fq afp : Option ℚ) (now : ℤ)
    (order : DbOrder) (hfound : get_order db order_id = some order) :
    update_order_status db order_id status fq afp now =
      some { order with
             status := status,
             updated_at := some now,
             filled_quantity := fq.getD order.filled_quantity,
             average_fill_price :=
               match afp with
               | none => order.average_fill_price
               | some p => some p,
             filled_at :=
               if status = OrderStatus.filled then some now else order.filled_at,
             cancelled_at :=
               if status = OrderStatus.cancelled then some now
               else order.cancelled_at } := by
  unfold update_order_status
  rw [hfound]
  by_cases hf : status = OrderStatus.filled
  · subst hf
    cases fq <;> cases afp <;> simp [Option.getD]
  · by_cases hc : status = OrderStatus.cancelled
    · subst hc
      cases fq <;> cases afp <;> simp [Option.getD]
    · cases fq <;> cases afp <;> simp [Option.getD, hf, hc]

/-- Witness for C3 (amended): updating the terminal `filled` order to
`cancelled` at time 5 installs the new status and stamps `cancelled_at`,
leaving the stale `filled_at` in place. -/
theorem update_order_status_unconditional_witness :
    update_order_status [("o1", dbOrderFilled)] "o1" OrderStatus.cancelled
        (some 2) none 5 =
      some { order_id := "o1", status := OrderStatus.cancelled,
             filled_quantity := 2, average_fill_price := some 10,
             filled_at := some 1, cancelled_at := some 5,
             updated_at := some 5 } := by
  have h := update_order_status_unconditional [("o1", dbOrderFilled)] "o1"
    OrderStatus.cancelled (some 2) none 5 dbOrderFilled rfl
  rw [h]
  rfl

/-!
## Claim theorems: paper broker
-/

/-- C4: `create_market_order` rejections. A buy whose slippage-adjusted
notional plus fee exceeds the available cash returns a `"rejected"` result
with `filled_quantity = 0` and reject reason `"insufficient_cash"`; a sell of
more quantity than currently held (zero when the symbol is absent) returns
`"rejected"` with `"insufficient_position"`. In both cases the returned
broker state — cash, positions and order log — is the unchanged input state,
and the embedded function is total (no exception path exists). -/
theorem create_market_order_rejects (b : PaperBroker) (symbol : String)
    (quantity current_price : ℚ) (coid : Option String) (oid : String)
    (sample : ℚ) (now : ℤ)
    (hcash : b.cash <
      apply_slippage sample current_price "buy" * quantity +
        calculate_fee 10 b.fees_bps
          (apply_slippage sample current_price "buy" * quantity) false)
    (hheld : ((assocGet b.positions symbol).getD ⟨0, 0⟩).quantity < quantity) :
    (b.create_market_order symbol "buy" quantity current_price coid oid sample now).1.status
        = "rejected" ∧
    (b.create_market_order symbol "buy" quantity current_price coid oid sample now).1.filled_quantity
        = 0 ∧
    (b.create_market_order symbol "buy" quantity current_price coid oid sample now).1.metadata.reject_reason
        = some "insufficient_cash" ∧
    (b.create_market_order symbol "buy" quantity current_price coid oid sample now).2 = b ∧
    (b.create_market_order symbol "sell" quantity current_price coid oid sample now).1.status
        = "rejected" ∧
    (b.create_market_order symbol "sell" quantity current_price coid oid sample now).1.filled_quantity
        = 0 ∧
    (b.create_market_order symbol "sell" quantity current_price coid oid sample now).1.metadata.reject_reason
        = some "insufficient_position" ∧
    (b.create_market_order symbol "sell" quantity current_price coid oid sample now).2 = b := by
  have hb : b.create_market_order symbol "buy" quantity current_price coid oid sample now =
      (mkRejectedOrder oid coid symbol "buy" quantity now "insufficient_cash", b) := by
    simp only [PaperBroker.create_market_order]
    rw [if_pos (by trivial), if_pos hcash]
  have hcond : (match assocGet b.positions symbol with
      | none => true
      | some pos => decide (pos.quantity < quantity)) = true := by
    cases hpos : assocGet b.positions symbol with
    | none => rfl
    | some pos =>
        rw [hpos] at hheld
        simpa using hheld
  have hs : b.create_market_order symbol "sell" quantity current_price coid oid sample now =
      (mkRejectedOrder oid coid symbol "sell" quantity now "insufficient_position", b) := by
    simp only [PaperBroker.create_market_order]
    rw [if_neg (by simp), if_pos hcond]
  rw [hb, hs]
  exact ⟨rfl, rfl, rfl, rfl, rfl, rfl, rfl, rfl⟩

/-- Witness for C4: with 1000 cash, buying 1 unit at price 50000 (required
cash 50050 with the 10 bps fee, no slippage sampled) is rejected as
`insufficient_cash`, and selling 1 unit with no position is rejected as
`insufficient_position`; the broker is unchanged both times. -/
theorem create_market_order_rejects_witness :
    (brokerPoor.create_market_order "BTC/USDT" "buy" 1 50000 none "ord-1" 0 0).1.status
        = "rejected" ∧
    (brokerPoor.create_market_order "BTC/USDT" "buy" 1 50000 none "ord-1" 0 0).1.metadata.reject_reason
        = some "insufficient_cash" ∧
    (brokerPoor.create_market_order "BTC/USDT" "buy" 1 50000 none "ord-1" 0 0).2 = brokerPoor ∧
    (brokerPoor.create_market_order "BTC/USDT" "sell" 1 50000 none "ord-1" 0 0).1.metadata.reject_reason
        = some "insufficient_position" ∧
    (brokerPoor.create_market_order "BTC/USDT" "sell" 1 50000 none "ord-1" 0 0).2 = brokerPoor := by
  have h := create_market_order_rejects brokerPoor "BTC/USDT" 1 50000 none "ord-1" 0 0
    (by norm_num [brokerPoor, apply_slippage, calculate_fee])
    (by simp [brokerPoor, assocGet])
  exact ⟨h.1, h.2.2.1, h.2.2.2.1, h.2.2.2.2.2.2.1, h.2.2.2.2.2.2.2⟩

/-- C6: an accepted paper buy of quantity `q` at slippage-adjusted price `p`
with fee `f = p*q*fees_bps/10000` debits exactly `p*q + f` from cash, raises
the symbol's position by `q`, sets the average price to
`(old_qty*old_avg + q*p)/(old_qty + q)`, and records the order as `"filled"`
with `filled_quantity = q` and `average_fill_price = p`. -/
theorem create_market_order_buy_fill (b : PaperBroker) (symbol : String)
    (quantity current_price : ℚ) (coid : Option String) (oid : String)
    (sample : ℚ) (now : ℤ) (p f oldq oldavg : ℚ)
    (hp : p = apply_slippage sample current_price "buy")
    (hf : f = p * quantity * (b.fees_bps / 10000))
    (hold : (assocGet b.positions symbol).getD ⟨0, 0⟩ = ⟨oldq, oldavg⟩)
    (hq : 0 ≤ quantity) (holdq : 0 ≤ oldq)
    (hcash : p * quantity + f ≤ b.cash) :
    (b.create_market_order symbol "buy" quantity current_price coid oid sample now).1
        = mkFilledOrder oid coid symbol "buy" quantity p f now ∧
    (b.create_market_order symbol "buy" quantity current_price coid oid sample now).1.status
        = "filled" ∧
    (b.create_market_order symbol "buy" quantity current_price coid oid sample now).1.filled_quantity
        = quantity ∧
    (b.create_market_order symbol "buy" quantity current_price coid oid sample now).1.average_fill_price
        = some p ∧
    (b.create_market_order symbol "buy" quantity current_price coid oid sample now).2.cash
        = b.cash - (p * quantity + f) ∧
    assocGet (b.create_market_order symbol "buy" quantity current_price coid oid sample now).2.positions
        symbol = some ⟨oldq + quantity, (oldq * oldavg + quantity * p) / (oldq + quantity)⟩ ∧
    assocGet (b.create_market_order symbol "buy" quantity current_price coid oid sample now).2.orders
        oid = some (mkFilledOrder oid coid symbol "buy" quantity p f now) := by
  have hfee : calculate_fee 10 b.fees_bps (p * quantity) false
      = p * quantity * (b.fees_bps / 10000) := by
    simp [calculate_fee]
  have havg : (if 0 < oldq + quantity then
        (oldq * oldavg + quantity * p) / (oldq + quantity) else 0)
      = (oldq * oldavg + quantity * p) / (oldq + quantity) := by
    split_ifs with hpos
    · rfl
    · have hz : oldq + quantity = 0 :=
        le_antisymm (not_lt.mp hpos) (add_nonneg holdq hq)
      rw [hz, div_zero]
  have hrun : b.create_market_order symbol "buy" quantity current_price coid oid sample now =
      (mkFilledOrder oid coid symbol "buy" quantity p f now,
       { b with
         cash := b.cash - (p * quantity + f),
         positions := assocSet b.positions symbol
           ⟨oldq + quantity, (oldq * oldavg + quantity * p) / (oldq + quantity)⟩,
         orders := assocSet b.orders oid
           (mkFilledOrder oid coid symbol "buy" quantity p f now) }) := by
    simp only [PaperBroker.create_market_order]
    rw [if_pos (by trivial)]
    rw [← hp, hfee, ← hf]
    rw [if_neg (not_lt.mpr hcash)]
    simp only [PaperBroker.update_position]
    rw [hold]
    simp only [havg]
    rw [if_pos trivial]
  rw [hrun]
  refine ⟨rfl, rfl, rfl, rfl, rfl, ?_, ?_⟩
  · exact assocGet_assocSet_self _ _ _
  · exact assocGet_assocSet_self _ _ _

/-- Witness for C6: a fresh broker (cash 10000, 10 bps fee) buys 1 unit at
price 100 with no slippage sampled: cash drops by 100.1, the position becomes
1 unit at average price 100, and the order is recorded as filled at 100. -/
theorem create_market_order_buy_fill_witness :
    (brokerFresh.create_market_order "BTC/USDT" "buy" 1 100 none "ord-1" 0 0).1.status
        = "filled" ∧
    (brokerFresh.create_market_order "BTC/USDT" "buy" 1 100 none "ord-1" 0 0).1.average_fill_price
        = some 100 ∧
    (brokerFresh.create_market_order "BTC/USDT" "buy" 1 100 none "ord-1" 0 0).2.cash
        = 10000 - 1001/10 ∧
    assocGet (brokerFresh.create_market_order "BTC/USDT" "buy" 1 100 none "ord-1" 0 0).2.positions
        "BTC/USDT" = some ⟨1, 100⟩ := by
  have h := create_market_order_buy_fill brokerFresh "BTC/USDT" 1 100 none "ord-1" 0 0
    100 (1/10) 0 0
    (by norm_num [apply_slippage])
    (by norm_num [brokerFresh])
    (by simp [brokerFresh, assocGet])
    (by norm_num) (by norm_num)
    (by norm_num [brokerFresh])
  refine ⟨h.2.1, ?_, ?_, ?_⟩
  · rw [h.2.2.2.1]
  · rw [h.2.2.2.2.1]
    norm_num [brokerFresh]
  · rw [h.2.2.2.2.2.1]
    norm_num

/-!
## Claim theorems: risk limits
-/

/-- C5: `can_place_order` rejects exactly when, in check order, the trades of
the last 60 seconds have reached `max_trades_per_minute`, or the trades of the
last day have reached `max_trades_per_day`, or the proposed per-symbol
exposure fraction strictly exceeds `max_position_exposure_pct`, or the
proposed aggregate exposure fraction strictly exceeds
`max_total_exposure_pct`; both exposure comparisons are strict, so a proposal
landing exactly on a cap is accepted. -/
theorem can_place_order_rejects_iff (m : RiskLimits) (symbol side : String)
    (position_value equity : ℚ) (now : ℤ)
    (heq : 0 < equity) :
    ((m.can_place_order symbol side position_value equity now).1.1 = false ↔
      (m.max_trades_per_minute ≤
          ((m.trade_history.filter (fun t => t.timestamp > now - 86400)).filter
            (fun t => t.timestamp > now - 60)).length ∨
       m.max_trades_per_day ≤
          (m.trade_history.filter (fun t => t.timestamp > now - 86400)).length ∨
       m.max_position_exposure_pct <
          ((assocGet m.position_exposures symbol).getD 0 + position_value) / equity ∨
       m.max_total_exposure_pct <
          ((m.position_exposures.map (fun p => p.2)).sum + position_value) / equity)) := by
  have hff : (m.trade_history.filter (fun t => t.timestamp > now - 86400)).filter
        (fun t => t.timestamp > now - 60) =
      m.trade_history.filter
        (fun a => decide (now - 60 < a.timestamp) && decide (now - 86400 < a.timestamp)) := by
    rw [List.filter_filter]
  rw [hff]
  simp only [RiskLimits.can_place_order, RiskLimits.check_rate_limits]
  by_cases h1 : m.max_trades_per_minute ≤
      (m.trade_history.filter
        (fun a => decide (now - 60 < a.timestamp) && decide (now - 86400 < a.timestamp))).length
  · simp [h1]
  · by_cases h2 : m.max_trades_per_day ≤
        (m.trade_history.filter (fun t => t.timestamp > now - 86400)).length
    · simp [h1, h2]
    · by_cases h3 : m.max_position_exposure_pct <
          ((assocGet m.position_exposures symbol).getD 0 + position_value) / equity
      · simp [h1, h2, h3]
      · by_cases h4 : m.max_total_exposure_pct <
            ((m.position_exposures.map (fun p => p.2)).sum + position_value) / equity
        · simp [h1, h2, h3, h4]
        · simp [h1, h2, h3, h4]

/-- Witness for C5: a fresh `RiskLimits()` (cap 0.25) accepts a proposal of
2500 exposure at equity 10000 — exactly on the per-symbol cap. -/
theorem can_place_order_rejects_iff_witness :
    (riskFresh.can_place_order "BTC/USDT" "buy" 2500 10000 0).1.1 = true := by
  have h := can_place_order_rejects_iff riskFresh "BTC/USDT" "buy" 2500 10000 0
    (by norm_num)
  rcases Bool.eq_false_or_eq_true
      ((riskFresh.can_place_order "BTC/USDT" "buy" 2500 10000 0).1.1) with hb | hb
  · exact hb
  · exfalso
    rcases h.mp hb with h1 | h2 | h3 | h4
    · simp [riskFresh] at h1
    · simp [riskFresh] at h2
    · rw [show assocGet riskFresh.position_exposures "BTC/USDT" = none from rfl] at h3
      norm_num [riskFresh] at h3
    · norm_num [riskFresh] at h4

/-!
## Claim theorems: trend/ATR strategy
-/

/-- C8: on a table long enough (`≥ max(sma_slow, atr_period)`) whose fast SMA
was at most the slow SMA on the second-to-last row and strictly above it on
the last row, `generate_signals` returns exactly one buy signal whose entry is
the last close, whose stop is `close - atr_mult_sl * ATR` and whose take
profit is `close + atr_mult_tp * atr_mult_sl * ATR` — the take-profit distance
scaled by the product of both multipliers — with confidence 1; any table
shorter than `max(sma_slow, atr_period)` yields no signals. -/
theorem generate_signals_bullish_crossover (s : TrendATRStrategy)
    (symbol : String) (data short : List OHLCVRow)
    (hlen : ¬data.length < max s.sma_slow s.atr_period)
    (hprev : oleB (smaLast data.dropLast s.sma_fast)
        (smaLast data.dropLast s.sma_slow) = true)
    (hlast : oltB (smaLast data s.sma_slow) (smaLast data s.sma_fast) = true)
    (hshort : short.length < max s.sma_slow s.atr_period) :
    s.generate_signals symbol data =
      [{ symbol := symbol, side := "buy",
         entry_price := data.getLast?.map (fun r => r.close),
         stop_loss := osub (data.getLast?.map (fun r => r.close))
           (omul (some s.atr_mult_sl) (atrLast data s.atr_period)),
         take_profit := oadd (data.getLast?.map (fun r => r.close))
           (omul (some (s.atr_mult_tp * s.atr_mult_sl)) (atrLast data s.atr_period)),
         confidence := 1,
         reason := "SMA crossover bullish: " ++ toString s.sma_fast ++ "/" ++
           toString s.sma_slow }] ∧
    s.generate_signals symbol short = [] := by
  constructor
  · simp only [TrendATRStrategy.generate_signals]
    rw [if_neg hlen, hprev, hlast]
    rfl
  · simp only [TrendATRStrategy.generate_signals]
    rw [if_pos hshort]

/-- Witness for C8: with windows (fast 1, slow 2, ATR 1) and closes
10, 10, 20, the fast SMA crosses above the slow SMA on the last bar
(prev 10 ≤ 10, last 15 < 20), ATR is 10, and the one buy signal has entry 20,
stop 20 − 2·10 = 0 and take profit 20 + (2·2)·10 = 60; the empty table yields
no signals. -/
theorem generate_signals_bullish_crossover_witness :
    trendTiny.generate_signals "BTC/USDT" rowsBullish =
      [{ symbol := "BTC/USDT", side := "buy", entry_price := some 20,
         stop_loss := some 0, take_profit := some 60, confidence := 1,
         reason := "SMA crossover bullish: 1/2" }] ∧
    trendTiny.generate_signals "BTC/USDT" [] = [] := by
  have h := generate_signals_bullish_crossover trendTiny "BTC/USDT" rowsBullish []
    (by decide)
    (by norm_num [rowsBullish, trendTiny, smaLast, oleB, List.dropLast])
    (by norm_num [rowsBullish, trendTiny, smaLast, oltB])
    (by decide)
  refine ⟨?_, h.2⟩
  rw [h.1]
  norm_num [rowsBullish, trendTiny, smaLast, atrLast, trueRanges, osub, oadd, omul]
  rfl

/-!
## Claim theorems: rebalancer
-/

/-- Per-symbol behaviour of the rebalance loop body `rebalanceFor`: the three
`continue` conditions produce no trade, and an emitted trade's quantity and
side are both derived from `delta_value / price`. -/
theorem rebalanceFor_spec (r : Rebalancer) (total : ℚ)
    (cur tgt prices : List (String × ℚ)) (sym : String) (cv tv dv : ℚ)
    (hth : 0 < r.rebalance_threshold_pct)
    (hcv : cv = (assocGet cur sym).getD 0)
    (htv : tv = (assocGet tgt sym).getD 0)
    (hdv : dv = tv - cv) :
    (|dv| / total < r.rebalance_threshold_pct →
      r.rebalanceFor total cur tgt prices sym = none) ∧
    (r.cost_aware = true → |dv| < 2 * (|dv| * r.fee_bps / 10000) →
      r.rebalanceFor total cur tgt prices sym = none) ∧
    ((assocGet prices sym).getD 0 = 0 →
      r.rebalanceFor total cur tgt prices sym = none) ∧
    (∀ t, r.rebalanceFor total cur tgt prices sym = some t →
      t.current_value = cv ∧ t.target_value = tv ∧ t.delta_value = dv ∧
      t.price = (assocGet prices sym).getD 0 ∧
      t.delta_quantity = |dv / (assocGet prices sym).getD 0| ∧
      (t.side = "buy" ↔ 0 < dv / (assocGet prices sym).getD 0)) := by
  have hbody : r.rebalanceFor total cur tgt prices sym =
      (if (if total > 0 then |dv| / total else 0) < r.rebalance_threshold_pct then
        none
       else if r.cost_aware && decide (|dv| < |dv| * (r.fee_bps / 10000) * 2) then
        none
       else if (assocGet prices sym).getD 0 = 0 then none
       else
        some { current_value := cv, target_value := tv, delta_value := dv,
               delta_quantity := |dv / (assocGet prices sym).getD 0|,
               side := if dv / (assocGet prices sym).getD 0 > 0 then "buy"
                       else "sell",
               price := (assocGet prices sym).getD 0 }) := by
    simp only [Rebalancer.rebalanceFor]
    rw [← hcv, ← htv, ← hdv]
  rw [hbody]
  refine ⟨?_, ?_, ?_, ?_⟩
  · intro hlt
    have hc1 : (if total > 0 then |dv| / total else 0) < r.rebalance_threshold_pct := by
      split_ifs with ht
      · exact hlt
      · exact hth
    rw [if_pos hc1]
  · intro hca hcost
    by_cases hc1 : (if total > 0 then |dv| / total else 0) < r.rebalance_threshold_pct
    · rw [if_pos hc1]
    · rw [if_neg hc1, if_pos ?_]
      have hcost2 : |dv| < |dv| * (r.fee_bps / 10000) * 2 := by
        calc |dv| < 2 * (|dv| * r.fee_bps / 10000) := hcost
        _ = |dv| * (r.fee_bps / 10000) * 2 := by ring
      simp [hca, hcost2]
  · intro hp
    by_cases hc1 : (if total > 0 then |dv| / total else 0) < r.rebalance_threshold_pct
    · rw [if_pos hc1]
    · rw [if_neg hc1]
      by_cases hc2 : (r.cost_aware && decide (|dv| < |dv| * (r.fee_bps / 10000) * 2)) = true
      · rw [if_pos hc2]
      · rw [if_neg hc2, if_pos hp]
  · intro t ht
    by_cases hc1 : (if total > 0 then |dv| / total else 0) < r.rebalance_threshold_pct
    · rw [if_pos hc1] at ht
      exact Option.noConfusion ht
    · rw [if_neg hc1] at ht
      by_cases hc2 : (r.cost_aware && decide (|dv| < |dv| * (r.fee_bps / 10000) * 2)) = true
      · rw [if_pos hc2] at ht
        exact Option.noConfusion ht
      · rw [if_neg hc2] at ht
        by_cases hc3 : (assocGet prices sym).getD 0 = 0
        · rw [if_pos hc3] at ht
          exact Option.noConfusion ht
        · rw [if_neg hc3] at ht
          obtain rfl := (Option.some.inj ht).symm
          refine ⟨rfl, rfl, rfl, rfl, rfl, ?_⟩
          by_cases hpos : 0 < dv / (assocGet prices sym).getD 0
          · simp [hpos]
          · simp [hpos]

/-- C9 counterexample: with the default configuration, current allocation
`{AAA: 100}`, target `{AAA: 200}` and the (accepted) negative price `-10`,
the emitted trade has side `"sell"` and `delta_quantity = 10`, although
`delta_value = 100` is positive and the claimed formula
`|delta_value| / price` equals `-10`: the claim fails because the code
derives both side and quantity from `delta_value / price`. -/
theorem calculate_rebalance_trades_negative_price :
    assocGet (rebalDefault.calculate_rebalance_trades [("AAA", 100)]
        [("AAA", 200)] [("AAA", -10)]) "AAA" =
      some { current_value := 100, target_value := 200, delta_value := 100,
             delta_quantity := 10, side := "sell", price := -10 } ∧
    (0 : ℚ) < 100 ∧ (10 : ℚ) ≠ |(100 : ℚ)| / (-10 : ℚ) := by
  refine ⟨?_, by norm_num, by norm_num⟩
  have hkey := assocGet_filterMap_build
    (symbolUnion [("AAA", (100 : ℚ))] [("AAA", (200 : ℚ))])
    (fun s => rebalDefault.rebalanceFor
      (([("AAA", (100 : ℚ))].map (fun p => p.2)).sum)
      [("AAA", 100)] [("AAA", 200)] [("AAA", -10)] s) "AAA"
  simp only [Rebalancer.calculate_rebalance_trades]
  rw [hkey, if_pos (by simp [symbolUnion])]
  simp only [Rebalancer.rebalanceFor]
  have habs : |(100 : ℚ)| = 100 := abs_of_pos (by norm_num)
  norm_num [assocGet, rebalDefault, habs]

/-- C9 amended: in `calculate_rebalance_trades`, a symbol whose deviation
`|delta_value| / total_current_value` is below `rebalance_threshold_pct`
never appears (with a positive threshold this also covers a non-positive
total, where the code uses deviation 0); with cost-aware mode on, a symbol
with `|delta_value| < 2 × (|delta_value| × fee_bps/10000)` never appears; a
symbol with missing or zero price never appears; and every emitted trade has
`delta_quantity = |delta_value / price|` and side `"buy"` exactly when
`delta_value / price > 0` — for a positive price these agree with
`|delta_value|/price` and `delta_value > 0`, but not for a negative price. -/
theorem calculate_rebalance_trades_spec (r : Rebalancer)
    (cur tgt prices : List (String × ℚ)) (sym : String) (cv tv dv total : ℚ)
    (hth : 0 < r.rebalance_threshold_pct)
    (hcv : cv = (assocGet cur sym).getD 0)
    (htv : tv = (assocGet tgt sym).getD 0)
    (hdv : dv = tv - cv)
    (htot : total = (cur.map (fun p => p.2)).sum) :
    (|dv| / total < r.rebalance_threshold_pct →
      assocGet (r.calculate_rebalance_trades cur tgt prices) sym = none) ∧
    (r.cost_aware = true → |dv| < 2 * (|dv| * r.fee_bps / 10000) →
      assocGet (r.calculate_rebalance_trades cur tgt prices) sym = none) ∧
    ((assocGet prices sym).getD 0 = 0 →
      assocGet (r.calculate_rebalance_trades cur tgt prices) sym = none) ∧
    (∀ t, assocGet (r.calculate_rebalance_trades cur tgt prices) sym = some t →
      t.current_value = cv ∧ t.target_value = tv ∧ t.delta_value = dv ∧
      t.price = (assocGet prices sym).getD 0 ∧
      t.delta_quantity = |dv / (assocGet prices sym).getD 0| ∧
      (t.side = "buy" ↔ 0 < dv / (assocGet prices sym).getD 0)) := by
  have hkey : assocGet (r.calculate_rebalance_trades cur tgt prices) sym =
      if sym ∈ symbolUnion cur tgt then
        r.rebalanceFor total cur tgt prices sym
      else none := by
    subst htot
    simp only [Rebalancer.calculate_rebalance_trades]
    exact assocGet_filterMap_build _ _ _
  have hspec := rebalanceFor_spec r total cur tgt prices sym cv tv dv hth hcv htv hdv
  rw [hkey]
  by_cases hmem : sym ∈ symbolUnion cur tgt
  · rw [if_pos hmem]
    exact hspec
  · rw [if_neg hmem]
    exact ⟨fun _ => rfl, fun _ _ => rfl, fun _ => rfl,
      fun t ht => Option.noConfusion ht⟩

/-- Witness for C9 (amended): with the default 2% threshold, a deviation of 1
against a total current value of 100 is below threshold, so `"AAA"` is not
traded. -/
theorem calculate_rebalance_trades_spec_witness :
    assocGet (rebalDefault.calculate_rebalance_trades [("AAA", 100)]
        [("AAA", 101)] []) "AAA" = none := by
  have h := calculate_rebalance_trades_spec rebalDefault [("AAA", 100)]
    [("AAA", 101)] [] "AAA" 100 101 1 100
    (by norm_num [rebalDefault])
    (by simp [assocGet])
    (by simp [assocGet])
    (by norm_num)
    (by simp)
  exact h.1 (by norm_num [rebalDefault])

end Botcrypto
